import Mathlib

/-!
Verification of the grid aggregation engine of the Police-Heatmap-Server
repository (`src/grid.js`), via a shallow embedding in Lean 4.

JavaScript numbers that participate in the algorithms are modelled as
rationals; the special values `null` and `NaN` are modelled by the
`JSNum` wrapper.  JavaScript `Map`s are modelled as insertion-ordered
association lists, mirroring the deterministic iteration order of JS maps.
The single transcendental operation, `Math.log1p`, is kept as an explicit
function parameter `logFn`, instantiated with `Real.log (1 + n)` in the
theorems that need it.
-/

namespace Heatmap

/-- Model of a JavaScript number slot that may hold `null` or `NaN`. -/
inductive JSNum (α : Type) where
  | null : JSNum α
  | nan : JSNum α
  | num : α → JSNum α
deriving DecidableEq

/-- Truncation toward zero of a rational, the meaning of `Math.trunc`. -/
def truncRat (q : ℚ) : ℤ := if 0 ≤ q then ⌊q⌋ else -⌊-q⌋

/-- JavaScript `Math.round`: round half toward positive infinity. -/
def jsRound {α : Type} [LinearOrderedField α] [FloorRing α] (x : α) : ℤ :=
  ⌊x + 1 / 2⌋

/-- `scaleCoordinate(coord, precision)` from `src/grid.js`: `null` for a
falsy (zero), non-numeric or `NaN` coordinate, otherwise
`Math.trunc(coord * 10 ** precision)`. -/
def scaleCoordinate (coord : JSNum ℚ) (precision : ℕ) : Option ℤ :=
  match coord with
  | JSNum.null => none
  | JSNum.nan => none
  | JSNum.num q => if q = 0 then none else some (truncRat (q * 10 ^ precision))

/-- `normalize(value, min, max, scale)` from `src/grid.js`. -/
def normalize {α : Type} [LinearOrderedField α] [FloorRing α]
    (value : JSNum α) (mn mx : α) (scale : ℕ) : ℤ :=
  if mx = mn then (if 0 < mn then (scale : ℤ) else 0)
  else
    match value with
    | JSNum.null => 0
    | JSNum.nan => 0
    | JSNum.num v => jsRound ((v - mn) / (mx - mn) * (scale : α))

/-- `getMinMax(countsMap)` from `src/grid.js`: minimum and maximum of the
non-null numeric values, `(0, 0)` when there are none. -/
def getMinMax {α : Type} [LinearOrderedField α] (vals : List (JSNum α)) : α × α :=
  let nums := vals.filterMap (fun v =>
    match v with
    | JSNum.num x => some x
    | _ => none)
  match nums with
  | [] => (0, 0)
  | x :: xs => (xs.foldl (fun a b => min a b) x, xs.foldl (fun a b => max a b) x)

/-- One day in milliseconds. -/
def DAY_MS : ℤ := 86400000

/-- A configured time window, `{id, daysAgoStart, daysAgoEnd}`. -/
structure TimeWindow where
  id : ℕ
  daysAgoStart : ℤ
  daysAgoEnd : ℤ
deriving DecidableEq

/-- The hardcoded `TIME_WINDOWS` list of `src/grid.js`. -/
def TIME_WINDOWS : List TimeWindow :=
  [⟨0, 0, 7⟩, ⟨1, 7, 14⟩, ⟨2, 14, 30⟩, ⟨3, 30, 90⟩]

/-- The hardcoded `DIVERSITY_RADII` list of `src/grid.js`. -/
def DIVERSITY_RADII : List ℚ := [1 / 100000, 1 / 40000, 1 / 20000, 1 / 10000]

/-- A stored event row of the `alerts` table (the fields the engine reads). -/
structure Alert where
  pubMillis : ℤ
  longitude : JSNum ℚ
  latitude : JSNum ℚ
deriving DecidableEq

/-- SQL `IS NOT NULL` on a coordinate column. -/
def isNotNull (c : JSNum ℚ) : Bool :=
  match c with
  | JSNum.null => false
  | _ => true

/-- A row of the `density_grids` table. -/
structure DensityRow where
  timeWindowId : ℕ
  level : ℕ
  lonScaled : ℤ
  latScaled : ℤ
  density : ℤ
deriving DecidableEq

/-- A row of the `temporal_diversity_grids` table. -/
structure DivRow where
  radiusGroupId : ℕ
  level : ℕ
  lonScaled : ℤ
  latScaled : ℤ
  score : ℕ
deriving DecidableEq

/-- `processTimeWindowForDensity`: the events of one window, i.e. the SQL
query `pubMillis >= ref - daysAgoEnd*DAY AND pubMillis < ref -
daysAgoStart*DAY AND longitude IS NOT NULL AND latitude IS NOT NULL`. -/
def processTimeWindowForDensity (alerts : List Alert) (ref : ℤ)
    (tw : TimeWindow) : List Alert :=
  alerts.filter (fun a =>
    decide (ref - tw.daysAgoEnd * DAY_MS ≤ a.pubMillis) &&
    decide (a.pubMillis < ref - tw.daysAgoStart * DAY_MS) &&
    isNotNull a.longitude && isNotNull a.latitude)

/-- Increment the count of key `k` in an insertion-ordered association
list, appending a fresh entry when absent (JS `Map.set(k, get(k)+1)`). -/
def bump (m : List ((ℤ × ℤ) × ℕ)) (k : ℤ × ℤ) : List ((ℤ × ℤ) × ℕ) :=
  match m with
  | [] => [(k, 1)]
  | (k', v) :: rest => if k' = k then (k', v + 1) :: rest else (k', v) :: bump rest k

/-- One step of the density bucketing loop: count the report into its
scaled cell, or skip it when either coordinate fails to scale. -/
def densityBucketStep (level : ℕ) (acc : List ((ℤ × ℤ) × ℕ)) (r : Alert) :
    List ((ℤ × ℤ) × ℕ) :=
  match scaleCoordinate r.longitude level, scaleCoordinate r.latitude level with
  | some x, some y => bump acc (x, y)
  | _, _ => acc

/-- `processPrecisionLevelForDensity`: bucket the reports of a window by
scaled coordinate at one level, skipping reports whose scaling fails. -/
def processPrecisionLevelForDensity (reports : List Alert) (level : ℕ) :
    List ((ℤ × ℤ) × ℕ) :=
  reports.foldl (densityBucketStep level) []

/-- `prepareDensityInserts`: log-scale the counts with `logFn`, normalize
against the level-wide min and max, and keep the cells whose normalized
density is positive. -/
def prepareDensityInserts {α : Type} [LinearOrderedField α] [FloorRing α]
    (logFn : ℕ → α) (cellCounts : List ((ℤ × ℤ) × ℕ)) (level windowId : ℕ) :
    List DensityRow :=
  let logs := cellCounts.map (fun p => (p.1, logFn p.2))
  let mm := getMinMax (logs.map (fun p => JSNum.num p.2))
  logs.filterMap (fun p =>
    let d := normalize (JSNum.num p.2) mm.1 mm.2 255
    if 0 < d then some ⟨windowId, level, p.1.1, p.1.2, d⟩ else none)

/-- The precision levels in the order the density loop visits them. -/
def levelsDesc : List ℕ := [5, 4, 3, 2, 1, 0]

/-- `generateDensityGridData`: all density rows written by one run. -/
def generateDensityGridData {α : Type} [LinearOrderedField α] [FloorRing α]
    (logFn : ℕ → α) (alerts : List Alert) (ref : ℤ) : List DensityRow :=
  TIME_WINDOWS.foldl (fun acc tw =>
    let reports := processTimeWindowForDensity alerts ref tw
    if reports.isEmpty then acc
    else
      acc ++ levelsDesc.flatMap (fun level =>
        let counts := processPrecisionLevelForDensity reports level
        if counts.isEmpty then []
        else prepareDensityInserts logFn counts level tw.id)) []

/-- `getTimeWindowIdSqlCase`: the generated SQL `CASE` tests the windows
in list order and yields the first `tw` with `pubMillis >= ref -
tw.daysAgoEnd * DAY_MS`, else SQL `NULL`. -/
def getTimeWindowId (ref pub : ℤ) : Option ℕ :=
  (TIME_WINDOWS.find? (fun tw => decide (ref - tw.daysAgoEnd * DAY_MS ≤ pub))).map
    (fun tw => tw.id)

/-- An element of `validAlertsForDiversity`: an alert together with the
time window id the SQL `CASE` assigned to it. -/
structure DivAlert where
  longitude : JSNum ℚ
  latitude : JSNum ℚ
  timeWindowId : ℕ
deriving DecidableEq

/-- The alert selection of `generateTemporalDiversityGridData`: non-null
coordinates, `pubMillis` at least the oldest window boundary, and a
non-null assigned time window id. -/
def validAlertsForDiversity (alerts : List Alert) (ref : ℤ) : List DivAlert :=
  (alerts.filter (fun a =>
      isNotNull a.latitude && isNotNull a.longitude &&
      decide (ref - 90 * DAY_MS ≤ a.pubMillis))).filterMap
    (fun a => (getTimeWindowId ref a.pubMillis).map
      (fun w => ⟨a.longitude, a.latitude, w⟩))

/-- Keep the smaller window id for key `k` in an insertion-ordered
association list (JS `if (cur === undefined || w < cur) map.set(k, w)`). -/
def keepMinWindow (m : List ((ℤ × ℤ) × ℕ)) (k : ℤ × ℤ) (w : ℕ) :
    List ((ℤ × ℤ) × ℕ) :=
  match m with
  | [] => [(k, w)]
  | (k', v) :: rest =>
      if k' = k then (if w < v then (k', w) :: rest else (k', v) :: rest)
      else (k', v) :: keepMinWindow rest k w

/-- One step of the most-recent-window index build: record the alert's
window id for its maximum-precision cell, or skip the alert when either
coordinate fails to scale. -/
def cellMapStep (acc : List ((ℤ × ℤ) × ℕ)) (a : DivAlert) :
    List ((ℤ × ℤ) × ℕ) :=
  match scaleCoordinate a.longitude 5, scaleCoordinate a.latitude 5 with
  | some x, some y => keepMinWindow acc (x, y) a.timeWindowId
  | _, _ => acc

/-- The `cellMostRecentTimeWindowIdMap` of `src/grid.js`: the smallest
(most recent) assigned window id per maximum-precision cell. -/
def cellMostRecentTimeWindowIdMap (valid : List DivAlert) :
    List ((ℤ × ℤ) × ℕ) :=
  valid.foldl cellMapStep []

/-- First-occurrence lookup in an association list (JS `Map.get`). -/
def alGet (m : List ((ℤ × ℤ) × ℕ)) (k : ℤ × ℤ) : Option ℕ :=
  match m with
  | [] => none
  | (k', v) :: rest => if k' = k then some v else alGet rest k

/-- Lookup with default `0` (JS `map.get(k) || 0`). -/
def alGetD (m : List ((ℤ × ℤ) × ℕ)) (k : ℤ × ℤ) : ℕ :=
  (alGet m k).getD 0

/-- The signed offsets `-h, …, h` scanned by the neighborhood loops. -/
def offsetRange (h : ℕ) : List ℤ :=
  (List.range (2 * h + 1)).map (fun (i : ℕ) => i - (h : ℤ))

/-- The window ids found in the `(2h+1) × (2h+1)` square of cells around
`anchor` (outer loop over `dy`, inner over `dx`). -/
def windowsInProximity (cm : List ((ℤ × ℤ) × ℕ)) (anchor : ℤ × ℤ) (h : ℕ) :
    List ℕ :=
  (offsetRange h).flatMap (fun dy =>
    (offsetRange h).filterMap (fun dx => alGet cm (anchor.1 + dx, anchor.2 + dy)))

/-- `uniqueTimeWindowsInProximity.size`: the number of distinct window ids
in the neighborhood of `anchor`. -/
def diversityScoreForAnchor (cm : List ((ℤ × ℤ) × ℕ)) (anchor : ℤ × ℤ)
    (h : ℕ) : ℕ :=
  (windowsInProximity cm anchor h).toFinset.card

/-- Raise the stored score of key `k` to at least `s`
(JS `map.set(k, Math.max(map.get(k) || 0, s))`). -/
def updateMax (m : List ((ℤ × ℤ) × ℕ)) (k : ℤ × ℤ) (s : ℕ) :
    List ((ℤ × ℤ) × ℕ) :=
  match m with
  | [] => [(k, max 0 s)]
  | (k', v) :: rest =>
      if k' = k then (k', max v s) :: rest else (k', v) :: updateMax rest k s

/-- One step of the anchor scoring loop: raise the anchor cell's stored
score to the anchor's neighborhood diversity score, or skip the alert
when either coordinate fails to scale. -/
def levelMaxStep (cm : List ((ℤ × ℤ) × ℕ)) (h : ℕ)
    (acc : List ((ℤ × ℤ) × ℕ)) (a : DivAlert) : List ((ℤ × ℤ) × ℕ) :=
  match scaleCoordinate a.longitude 5, scaleCoordinate a.latitude 5 with
  | some x, some y =>
      updateMax acc (x, y) (diversityScoreForAnchor cm (x, y) h)
  | _, _ => acc

/-- The `levelMaxCellDiversity` map of one radius group: for every anchor
alert whose coordinates scale, the running maximum of its neighborhood
diversity score, per maximum-precision cell. -/
def levelMaxCellDiversity (valid : List DivAlert) (cm : List ((ℤ × ℤ) × ℕ))
    (h : ℕ) : List ((ℤ × ℤ) × ℕ) :=
  valid.foldl (levelMaxStep cm h) []

/-- The level-MAX insert batch of one radius group: cells with a positive
score, tagged with the group id and level 5. -/
def levelMaxInserts (g : ℕ) (m : List ((ℤ × ℤ) × ℕ)) : List DivRow :=
  m.filterMap (fun p =>
    if 0 < p.2 then some ⟨g, 5, p.1.1, p.1.2, p.2⟩ else none)

/-- Parent cell address: both scaled coordinates divided by 10 with
truncation toward zero (`Math.trunc(c / 10)`). -/
def parentAddr (c : ℤ × ℤ) : ℤ × ℤ :=
  ((if 0 ≤ c.1 then c.1 / 10 else -((-c.1) / 10)),
   (if 0 ≤ c.2 then c.2 / 10 else -((-c.2) / 10)))

/-- One step of the roll-up accumulation: raise the parent cell's stored
score to the child's score. -/
def rollUpStep (acc : List ((ℤ × ℤ) × ℕ)) (c : (ℤ × ℤ) × ℕ) :
    List ((ℤ × ℤ) × ℕ) :=
  updateMax acc (parentAddr c.1) c.2

/-- Group the level-(L+1) cells by parent address, keeping the maximum
score per parent (the roll-up accumulation loop). -/
def rollUpFold (cs : List ((ℤ × ℤ) × ℕ)) : List ((ℤ × ℤ) × ℕ) :=
  cs.foldl rollUpStep []

/-- One roll-up step: the cells persisted at level `L` given the cells
persisted at level `L+1` (positive scores only). -/
def rollUpLevel (cs : List ((ℤ × ℤ) × ℕ)) : List ((ℤ × ℤ) × ℕ) :=
  (rollUpFold cs).filter (fun p => 0 < p.2)

/-- `k`-fold iteration of the roll-up step. -/
def rollUpIter (lm : List ((ℤ × ℤ) × ℕ)) : ℕ → List ((ℤ × ℤ) × ℕ)
  | 0 => lm
  | k + 1 => rollUpLevel (rollUpIter lm k)

/-- The cells persisted at level `L` of one radius group, given its
persisted level-5 cells `lm`: level `L` is derived from level `L+1` by
one roll-up step, level 5 is `lm` itself. -/
def divPersisted (lm : List ((ℤ × ℤ) × ℕ)) (L : ℕ) : List ((ℤ × ℤ) × ℕ) :=
  rollUpIter lm (5 - L)

/-- The level-(L+1) cells of the same radius group whose parent address is
`p` — the children a persisted level-L cell at `p` is derived from. -/
def divChildren (lm : List ((ℤ × ℤ) × ℕ)) (L : ℕ) (p : ℤ × ℤ) :
    List ((ℤ × ℤ) × ℕ) :=
  (divPersisted lm (L + 1)).filter (fun c => parentAddr c.1 = p)

/-- `Math.floor(radius / cellResolution)`: the neighborhood half-width in
cells of radius group `g`. -/
def neighborhoodHalfWidthInCells (g : ℕ) : ℕ :=
  (⌊(DIVERSITY_RADII.getD g 0) / ((1 : ℚ) / 10 ^ 5)⌋).toNat

/-- The persisted level-5 cells of radius group `g` (positive scores). -/
def groupLevelMaxCells (valid : List DivAlert) (cm : List ((ℤ × ℤ) × ℕ))
    (g : ℕ) : List ((ℤ × ℤ) × ℕ) :=
  (levelMaxCellDiversity valid cm (neighborhoodHalfWidthInCells g)).filter
    (fun p => 0 < p.2)

/-- `generateTemporalDiversityGridData`: all diversity rows written by one
run, in write order (groups in id order, levels from 5 down to 0). -/
def generateTemporalDiversityGridData (alerts : List Alert) (ref : ℤ) :
    List DivRow :=
  let valid := validAlertsForDiversity alerts ref
  if valid.isEmpty then []
  else
    let cm := cellMostRecentTimeWindowIdMap valid
    (List.range 4).flatMap (fun g =>
      let lm := groupLevelMaxCells valid cm g
      levelsDesc.flatMap (fun L =>
        (divPersisted lm L).map (fun c => ⟨g, L, c.1.1, c.1.2, c.2⟩)))

/-- The ingestion bounding box configuration consumed by the metadata
writer (`WAZE_AREA_TOP/BOTTOM/LEFT/RIGHT`). -/
structure Config where
  top : ℚ
  bottom : ℚ
  left : ℚ
  right : ℚ

/-- First-occurrence lookup in a string key/value table. -/
def lookupS (m : List (String × String)) (k : String) : Option String :=
  match m with
  | [] => none
  | (k', v) :: rest => if k' = k then some v else lookupS rest k

/-- SQL `INSERT OR REPLACE` into the `metadata` table: replace the first
row with key `k`, or append a fresh row. -/
def upsert (m : List (String × String)) (k v : String) :
    List (String × String) :=
  match m with
  | [] => [(k, v)]
  | (k', v') :: rest =>
      if k' = k then (k, v) :: rest else (k', v') :: upsert rest k v

/-- The `WHERE` clause of the metadata count query: non-null coordinates
and `pubMillis` in the overall half-open range `[ref - 90 days, ref)`. -/
def metadataQualifies (ref : ℤ) (a : Alert) : Bool :=
  decide (ref - 90 * DAY_MS ≤ a.pubMillis) && decide (a.pubMillis < ref) &&
  isNotNull a.longitude && isNotNull a.latitude

/-- The count behind `total_alerts_in_time_windows`. -/
def totalAlertsInWindows (alerts : List Alert) (ref : ℤ) : ℕ :=
  (alerts.filter (metadataQualifies ref)).length

/-- `updateMetadata`: upsert the four metadata keys, in program order,
into the existing metadata table. -/
def updateMetadata (cfg : Config) (old : List (String × String)) (ref : ℤ)
    (alerts : List Alert) : List (String × String) :=
  upsert
    (upsert
      (upsert
        (upsert old "last_grid_update_timestamp" (toString ref))
        "center_longitude" (toString ((cfg.left + cfg.right) / 2)))
      "center_latitude" (toString ((cfg.bottom + cfg.top) / 2)))
    "total_alerts_in_time_windows" (toString (totalAlertsInWindows alerts ref))

/-- The database state the run reads and writes: the event store plus the
three aggregate tables. -/
structure DBState where
  alerts : List Alert
  density : List DensityRow
  diversity : List DivRow
  metadata : List (String × String)
deriving DecidableEq

/-- One full run against an already-chosen reference timestamp: drop and
rebuild both grid tables from the event store, then upsert the metadata
keys.  The event store itself is never written. -/
def runUpdate {α : Type} [LinearOrderedField α] [FloorRing α]
    (logFn : ℕ → α) (cfg : Config) (ref : ℤ) (s : DBState) : DBState :=
  { alerts := s.alerts
    density := generateDensityGridData logFn s.alerts ref
    diversity := generateTemporalDiversityGridData s.alerts ref
    metadata := updateMetadata cfg s.metadata ref s.alerts }

/-- `SELECT MAX(pubMillis) FROM alerts`: `NULL` on an empty store. -/
def maxPubMillis (alerts : List Alert) : Option ℤ :=
  match alerts with
  | [] => none
  | a :: rest => some (rest.foldl (fun m x => max m x.pubMillis) a.pubMillis)

/-- The reference timestamp of `updateGrids`: the maximum stored
`pubMillis`, falling back to the wall clock `now` on an empty store. -/
def chooseReferenceTimestamp (alerts : List Alert) (now : ℤ) : ℤ :=
  match maxPubMillis alerts with
  | some m => m
  | none => now

/-- `updateGrids`: choose the reference timestamp from the store, then run
the density pipeline, the diversity pipeline and the metadata writer, all
against that one timestamp. -/
def updateGrids {α : Type} [LinearOrderedField α] [FloorRing α]
    (logFn : ℕ → α) (cfg : Config) (now : ℤ) (s : DBState) : DBState :=
  runUpdate logFn cfg (chooseReferenceTimestamp s.alerts now) s

/-- Tag the plain cells of one level with a group id and level. -/
def tagRows (g L : ℕ) (cs : List ((ℤ × ℤ) × ℕ)) : List DivRow :=
  cs.map (fun c => ⟨g, L, c.1.1, c.1.2, c.2⟩)

/-- One level of the density pipeline instrumented with a write-failure
oracle: a unit is the batch write of one `(window, level)`.  A failing
write is caught — the rows are lost but the sweep continues; the first
component records every `(window, level)` unit the loops processed. -/
def densityLevelStepF {α : Type} [LinearOrderedField α] [FloorRing α]
    (logFn : ℕ → α) (oracle : ℕ → ℕ → Bool) (reports : List Alert)
    (twid : ℕ) (st : List (ℕ × ℕ) × List DensityRow) (level : ℕ) :
    List (ℕ × ℕ) × List DensityRow :=
  let counts := processPrecisionLevelForDensity reports level
  if counts.isEmpty then (st.1 ++ [(twid, level)], st.2)
  else
    let ins := prepareDensityInserts logFn counts level twid
    if ins.isEmpty then (st.1 ++ [(twid, level)], st.2)
    else if oracle twid level then (st.1 ++ [(twid, level)], st.2)
    else (st.1 ++ [(twid, level)], st.2 ++ ins)

/-- One window of the oracle-instrumented density pipeline. -/
def densityWindowStepF {α : Type} [LinearOrderedField α] [FloorRing α]
    (logFn : ℕ → α) (oracle : ℕ → ℕ → Bool) (alerts : List Alert) (ref : ℤ)
    (st : List (ℕ × ℕ) × List DensityRow) (tw : TimeWindow) :
    List (ℕ × ℕ) × List DensityRow :=
  let reports := processTimeWindowForDensity alerts ref tw
  if reports.isEmpty then st
  else levelsDesc.foldl (densityLevelStepF logFn oracle reports tw.id) st

/-- The oracle-instrumented density pipeline entry point. -/
def generateDensityGridDataF {α : Type} [LinearOrderedField α] [FloorRing α]
    (logFn : ℕ → α) (oracle : ℕ → ℕ → Bool) (alerts : List Alert) (ref : ℤ) :
    List (ℕ × ℕ) × List DensityRow :=
  TIME_WINDOWS.foldl (densityWindowStepF logFn oracle alerts ref) ([], [])

/-- One level of a radius group under a write-failure oracle.  The state
threads the cells actually persisted at the previous (finer) level, since
each level re-reads them from the store; a failed or skipped write leaves
that level empty.  The first component records every `(group, level)`
unit processed. -/
def divLevelStepF (oracle : ℕ → ℕ → Bool) (g : ℕ)
    (st : List (ℕ × ℕ) × List ((ℤ × ℤ) × ℕ) × List DivRow) (L : ℕ) :
    List (ℕ × ℕ) × List ((ℤ × ℤ) × ℕ) × List DivRow :=
  let att := st.1 ++ [(g, L)]
  let children := st.2.1
  if children.isEmpty then (att, [], st.2.2)
  else
    let ins := rollUpLevel children
    if ins.isEmpty then (att, [], st.2.2)
    else if oracle g L then (att, [], st.2.2)
    else (att, ins, st.2.2 ++ tagRows g L ins)

/-- One radius group of the oracle-instrumented diversity pipeline. -/
def divGroupRunF (oracle : ℕ → ℕ → Bool) (g : ℕ)
    (lm : List ((ℤ × ℤ) × ℕ)) :
    List (ℕ × ℕ) × List ((ℤ × ℤ) × ℕ) × List DivRow :=
  let p5 := if lm.isEmpty then [] else if oracle g 5 then [] else lm
  [4, 3, 2, 1, 0].foldl (divLevelStepF oracle g) ([(g, 5)], p5, tagRows g 5 p5)

/-- One radius group step of the oracle-instrumented diversity pipeline;
units are `(radiusGroup, level)` pairs. -/
def divGroupStepF (oracle : ℕ → ℕ → Bool) (valid : List DivAlert)
    (cm : List ((ℤ × ℤ) × ℕ)) (st : List (ℕ × ℕ) × List DivRow) (g : ℕ) :
    List (ℕ × ℕ) × List DivRow :=
  let r := divGroupRunF oracle g (groupLevelMaxCells valid cm g)
  (st.1 ++ r.1, st.2 ++ r.2.2)

/-- The oracle-instrumented diversity pipeline entry point. -/
def generateTemporalDiversityGridDataF (oracle : ℕ → ℕ → Bool)
    (alerts : List Alert) (ref : ℤ) : List (ℕ × ℕ) × List DivRow :=
  let valid := validAlertsForDiversity alerts ref
  if valid.isEmpty then ([], [])
  else
    let cm := cellMostRecentTimeWindowIdMap valid
    (List.range 4).foldl (divGroupStepF oracle valid cm) ([], [])

/-! General helper lemmas about left folds of `max`. -/

theorem foldl_max_init_le {β : Type} [LinearOrder β] (l : List β) (a : β) :
    a ≤ l.foldl max a := by
  induction l generalizing a with
  | nil => exact le_refl a
  | cons x xs ih => exact le_trans (le_max_left a x) (ih (max a x))

theorem foldl_max_mem_le {β : Type} [LinearOrder β] :
    ∀ (l : List β) (a t : β), t ∈ l → t ≤ l.foldl max a := by
  intro l
  induction l with
  | nil => intro a t ht; cases ht
  | cons x xs ih =>
      intro a t ht
      rcases List.mem_cons.mp ht with h | h
      · subst h
        exact le_trans (le_max_right a t) (foldl_max_init_le xs _)
      · rw [List.foldl_cons]
        exact ih _ t h

theorem foldl_max_attained {β : Type} [LinearOrder β] :
    ∀ (l : List β) (a : β), l.foldl max a = a ∨ l.foldl max a ∈ l := by
  intro l
  induction l with
  | nil => intro a; exact Or.inl rfl
  | cons x xs ih =>
      intro a
      rw [List.foldl_cons]
      rcases ih (max a x) with h | h
      · rw [h]
        rcases max_choice a x with h1 | h1
        · exact Or.inl h1
        · exact Or.inr (by rw [h1]; exact List.mem_cons_self x xs)
      · exact Or.inr (List.mem_cons_of_mem x h)

/-- C4: `normalize` returns an integer in `[0, outScale]` whenever the
value lies in a nondegenerate `[min, max]` interval, and on a degenerate
interval (`max == min`) it returns `outScale` when the shared bound is
positive and `0` otherwise, for every value including null and NaN. -/
theorem normalize_contract :
    (∀ (v mn mx : ℚ) (scale : ℕ), mn ≤ v → v ≤ mx → mn < mx →
      0 ≤ normalize (JSNum.num v) mn mx scale ∧
        normalize (JSNum.num v) mn mx scale ≤ (scale : ℤ))
    ∧ ∀ (v : JSNum ℚ) (m : ℚ) (scale : ℕ),
        normalize v m m scale = if 0 < m then (scale : ℤ) else 0 := by
  constructor
  · intro v mn mx scale h1 h2 h3
    have hne : mx ≠ mn := ne_of_gt h3
    have hpos : (0 : ℚ) < mx - mn := sub_pos.mpr h3
    rw [normalize, if_neg hne]
    have hq0 : (0 : ℚ) ≤ (v - mn) / (mx - mn) :=
      div_nonneg (sub_nonneg.mpr h1) (le_of_lt hpos)
    have hq1 : (v - mn) / (mx - mn) ≤ 1 := by
      rw [div_le_one hpos]
      linarith
    have hr0 : (0 : ℚ) ≤ (v - mn) / (mx - mn) * (scale : ℚ) :=
      mul_nonneg hq0 (by positivity)
    have hr1 : (v - mn) / (mx - mn) * (scale : ℚ) ≤ (scale : ℚ) := by
      calc (v - mn) / (mx - mn) * (scale : ℚ)
          ≤ 1 * (scale : ℚ) := by
            exact mul_le_mul_of_nonneg_right hq1 (by positivity)
        _ = (scale : ℚ) := one_mul _
    constructor
    · rw [jsRound]
      exact Int.le_floor.mpr (by push_cast; linarith)
    · rw [jsRound]
      have : ((v - mn) / (mx - mn) * (scale : ℚ) + 1 / 2) <
          ((scale : ℤ) + 1 : ℤ) := by
        push_cast
        linarith
      exact Int.lt_add_one_iff.mp (Int.floor_lt.mpr this)
  · intro v m scale
    rw [normalize.eq_def, if_pos rfl]

/-- C4 witness: the contract evaluated at concrete inputs. -/
theorem normalize_contract_witness :
    ((0 : ℚ) ≤ 1 ∧ (1 : ℚ) ≤ 2 ∧ (0 : ℚ) < 2 ∧
      0 ≤ normalize (JSNum.num (1 : ℚ)) 0 2 255 ∧
        normalize (JSNum.num (1 : ℚ)) 0 2 255 ≤ (255 : ℤ))
    ∧ normalize (JSNum.null : JSNum ℚ) 3 3 255 =
        if (0 : ℚ) < 3 then (255 : ℤ) else 0 := by
  refine ⟨⟨by decide, by decide, by decide, ?_, ?_⟩, ?_⟩
  · exact (normalize_contract.1 1 0 2 255 (by decide) (by decide) (by decide)).1
  · exact (normalize_contract.1 1 0 2 255 (by decide) (by decide) (by decide)).2
  · exact normalize_contract.2 JSNum.null 3 255

/-- C5 counterexample: a coordinate that is exactly `0` is numeric, yet
`scaleCoordinate` returns `null` rather than `truncate(0 × 10^L) = 0`. -/
theorem scaleCoordinate_zero_cex :
    scaleCoordinate (JSNum.num 0) 0 ≠ some (truncRat ((0 : ℚ) * 10 ^ 0)) := by
  simp [scaleCoordinate]

/-- C5 (amended): for every nonzero numeric coordinate `q`,
`scaleCoordinate` is truncation toward zero of `q × 10^L`, and it maps
null, NaN and the coordinate `0` to null. -/
theorem scaleCoordinate_trunc (q : ℚ) (hq : q ≠ 0) (L : ℕ) :
    scaleCoordinate (JSNum.num q) L = some (truncRat (q * 10 ^ L))
    ∧ scaleCoordinate JSNum.null L = none
    ∧ scaleCoordinate JSNum.nan L = none
    ∧ scaleCoordinate (JSNum.num 0) L = none := by
  refine ⟨?_, rfl, rfl, ?_⟩
  · rw [scaleCoordinate, if_neg hq]
  · rw [scaleCoordinate, if_pos rfl]

/-- C5 witness: the amended claim evaluated at the coordinate `2`. -/
theorem scaleCoordinate_trunc_witness :
    (2 : ℚ) ≠ 0 ∧
      scaleCoordinate (JSNum.num 2) 1 = some (truncRat ((2 : ℚ) * 10 ^ 1)) :=
  ⟨by decide, (scaleCoordinate_trunc 2 (by decide) 1).1⟩

/-- C9: an event whose `pubMillis` equals the reference timestamp is
assigned window 0 by the diversity pipeline's lower-boundary-only `CASE`
and selected by its query, yet it satisfies no density window range and
not the metadata count range, both of which test `pubMillis < ref`
strictly. -/
theorem boundary_event_windows (alerts : List Alert) (ref : ℤ) (a : Alert)
    (ha : a ∈ alerts) (hpub : a.pubMillis = ref)
    (hlon : isNotNull a.longitude = true) (hlat : isNotNull a.latitude = true) :
    getTimeWindowId ref a.pubMillis = some 0
    ∧ (⟨a.longitude, a.latitude, 0⟩ : DivAlert) ∈ validAlertsForDiversity alerts ref
    ∧ (∀ tw ∈ TIME_WINDOWS, a ∉ processTimeWindowForDensity alerts ref tw)
    ∧ metadataQualifies ref a = false := by
  have hc : ref - 7 * DAY_MS ≤ ref := by rw [DAY_MS]; omega
  have h90 : ref - 90 * DAY_MS ≤ ref := by rw [DAY_MS]; omega
  have h0 : getTimeWindowId ref a.pubMillis = some 0 := by
    rw [hpub, getTimeWindowId, TIME_WINDOWS]
    simp [List.find?, hc]
  refine ⟨h0, ?_, ?_, ?_⟩
  · rw [validAlertsForDiversity]
    refine List.mem_filterMap.mpr ⟨a, List.mem_filter.mpr ⟨ha, ?_⟩, ?_⟩
    · simp [hlat, hlon, hpub, h90]
    · rw [h0]
      rfl
  · intro tw htw hmem
    rw [processTimeWindowForDensity] at hmem
    have hm := (List.mem_filter.mp hmem).2
    simp only [Bool.and_eq_true, decide_eq_true_eq] at hm
    have hlt : a.pubMillis < ref - tw.daysAgoStart * DAY_MS := hm.1.1.2
    have hstart : 0 ≤ tw.daysAgoStart := by
      rw [TIME_WINDOWS] at htw
      simp only [List.mem_cons, List.not_mem_nil, or_false] at htw
      rcases htw with h | h | h | h <;> (subst h; decide)
    rw [hpub, DAY_MS] at hlt
    omega
  · rw [metadataQualifies]
    simp [hpub]

/-- C9 witness: the boundary behaviour evaluated at a concrete store. -/
theorem boundary_event_windows_witness :
    getTimeWindowId 0 (⟨0, JSNum.num 1, JSNum.num 1⟩ : Alert).pubMillis = some 0
    ∧ (⟨JSNum.num 1, JSNum.num 1, 0⟩ : DivAlert) ∈
        validAlertsForDiversity [⟨0, JSNum.num 1, JSNum.num 1⟩] 0
    ∧ (∀ tw ∈ TIME_WINDOWS,
        (⟨0, JSNum.num 1, JSNum.num 1⟩ : Alert) ∉
          processTimeWindowForDensity [⟨0, JSNum.num 1, JSNum.num 1⟩] 0 tw)
    ∧ metadataQualifies 0 ⟨0, JSNum.num 1, JSNum.num 1⟩ = false :=
  boundary_event_windows [⟨0, JSNum.num 1, JSNum.num 1⟩] 0
    ⟨0, JSNum.num 1, JSNum.num 1⟩ (List.mem_singleton_self _) rfl rfl rfl

/-- A coordinate value the scaler rejects: zero, `NaN`, or non-numeric. -/
def badCoord : JSNum ℚ → Bool
  | JSNum.null => true
  | JSNum.nan => true
  | JSNum.num q => decide (q = 0)

theorem badCoord_scaleCoordinate (c : JSNum ℚ) (hb : badCoord c = true)
    (L : ℕ) : scaleCoordinate c L = none := by
  cases c with
  | null => rfl
  | nan => rfl
  | num q =>
      have hq : q = 0 := by simpa [badCoord] using hb
      rw [hq, scaleCoordinate, if_pos rfl]

theorem densityBucketStep_skip (level : ℕ) (acc : List ((ℤ × ℤ) × ℕ))
    (r : Alert)
    (h : scaleCoordinate r.longitude level = none ∨
      scaleCoordinate r.latitude level = none) :
    densityBucketStep level acc r = acc := by
  rcases h with h | h
  · rw [densityBucketStep, h]
  · rw [densityBucketStep, h]
    cases scaleCoordinate r.longitude level <;> rfl

theorem cellMapStep_skip (acc : List ((ℤ × ℤ) × ℕ)) (a : DivAlert)
    (h : scaleCoordinate a.longitude 5 = none ∨
      scaleCoordinate a.latitude 5 = none) :
    cellMapStep acc a = acc := by
  rcases h with h | h
  · rw [cellMapStep, h]
  · rw [cellMapStep, h]
    cases scaleCoordinate a.longitude 5 <;> rfl

theorem levelMaxStep_skip (cm : List ((ℤ × ℤ) × ℕ)) (hw : ℕ)
    (acc : List ((ℤ × ℤ) × ℕ)) (a : DivAlert)
    (h : scaleCoordinate a.longitude 5 = none ∨
      scaleCoordinate a.latitude 5 = none) :
    levelMaxStep cm hw acc a = acc := by
  rcases h with h | h
  · rw [levelMaxStep, h]
  · rw [levelMaxStep, h]
    cases scaleCoordinate a.longitude 5 <;> rfl

/-- C10: an event with a zero (or NaN or non-numeric) longitude or
latitude fails coordinate scaling at every level, and therefore
contributes to no density bucket, to no entry of the most-recent-window
index, and to no diversity anchor score. -/
theorem zero_coordinate_invisible (lon lat : JSNum ℚ)
    (hb : badCoord lon = true ∨ badCoord lat = true) :
    (∀ L : ℕ, scaleCoordinate lon L = none ∨ scaleCoordinate lat L = none)
    ∧ (∀ (L : ℕ) (pm : ℤ) (xs ys : List Alert),
        processPrecisionLevelForDensity (xs ++ ⟨pm, lon, lat⟩ :: ys) L =
          processPrecisionLevelForDensity (xs ++ ys) L)
    ∧ (∀ (w : ℕ) (xs ys : List DivAlert),
        cellMostRecentTimeWindowIdMap (xs ++ ⟨lon, lat, w⟩ :: ys) =
          cellMostRecentTimeWindowIdMap (xs ++ ys))
    ∧ (∀ (w : ℕ) (cm : List ((ℤ × ℤ) × ℕ)) (hw : ℕ) (xs ys : List DivAlert),
        levelMaxCellDiversity (xs ++ ⟨lon, lat, w⟩ :: ys) cm hw =
          levelMaxCellDiversity (xs ++ ys) cm hw) := by
  have hscale : ∀ L : ℕ,
      scaleCoordinate lon L = none ∨ scaleCoordinate lat L = none := by
    intro L
    rcases hb with h | h
    · exact Or.inl (badCoord_scaleCoordinate lon h L)
    · exact Or.inr (badCoord_scaleCoordinate lat h L)
  refine ⟨hscale, ?_, ?_, ?_⟩
  · intro L pm xs ys
    rw [processPrecisionLevelForDensity, processPrecisionLevelForDensity,
      List.foldl_append, List.foldl_append, List.foldl_cons,
      densityBucketStep_skip L _ ⟨pm, lon, lat⟩ (hscale L)]
  · intro w xs ys
    rw [cellMostRecentTimeWindowIdMap, cellMostRecentTimeWindowIdMap,
      List.foldl_append, List.foldl_append, List.foldl_cons,
      cellMapStep_skip _ ⟨lon, lat, w⟩ (hscale 5)]
  · intro w cm hw xs ys
    rw [levelMaxCellDiversity, levelMaxCellDiversity,
      List.foldl_append, List.foldl_append, List.foldl_cons,
      levelMaxStep_skip cm hw _ ⟨lon, lat, w⟩ (hscale 5)]

/-- C10 witness: a zero-longitude event evaluated concretely. -/
theorem zero_coordinate_invisible_witness :
    (badCoord (JSNum.num 0) = true ∨ badCoord (JSNum.num 1) = true)
    ∧ processPrecisionLevelForDensity
        ([] ++ (⟨0, JSNum.num 0, JSNum.num 1⟩ : Alert) :: []) 5 =
        processPrecisionLevelForDensity ([] ++ []) 5 :=
  ⟨Or.inl (by decide),
    (zero_coordinate_invisible (JSNum.num 0) (JSNum.num 1)
      (Or.inl (by decide))).2.1 5 0 [] []⟩

/-! Lemmas about the metadata upsert. -/

theorem lookupS_upsert_self (m : List (String × String)) (k v : String) :
    lookupS (upsert m k v) k = some v := by
  induction m with
  | nil => simp [upsert, lookupS]
  | cons p rest ih =>
      obtain ⟨a, b⟩ := p
      by_cases h : a = k
      · subst h
        simp [upsert, lookupS]
      · simp [upsert, lookupS, h, ih]

theorem lookupS_upsert_ne (m : List (String × String)) (k k' v : String)
    (h : k' ≠ k) : lookupS (upsert m k v) k' = lookupS m k' := by
  induction m with
  | nil => simp [upsert, lookupS, Ne.symm h]
  | cons p rest ih =>
      obtain ⟨a, b⟩ := p
      by_cases hak : a = k
      · subst hak
        simp [upsert, lookupS, Ne.symm h]
      · simp [upsert, lookupS, hak, ih]

theorem upsert_of_lookup_eq (m : List (String × String)) (k v : String)
    (h : lookupS m k = some v) : upsert m k v = m := by
  induction m with
  | nil => simp [lookupS] at h
  | cons p rest ih =>
      obtain ⟨a, b⟩ := p
      by_cases hak : a = k
      · subst hak
        rw [lookupS, if_pos rfl] at h
        rw [upsert, if_pos rfl]
        have hv : v = b := by
          injection h with h
          exact h.symm
        rw [hv]
      · rw [lookupS, if_neg hak] at h
        rw [upsert, if_neg hak, ih h]

theorem upsert4_idem (m : List (String × String))
    (k1 k2 k3 k4 v1 v2 v3 v4 : String)
    (h12 : k1 ≠ k2) (h13 : k1 ≠ k3) (h14 : k1 ≠ k4)
    (h23 : k2 ≠ k3) (h24 : k2 ≠ k4) (h34 : k3 ≠ k4) :
    upsert (upsert (upsert (upsert
      (upsert (upsert (upsert (upsert m k1 v1) k2 v2) k3 v3) k4 v4)
      k1 v1) k2 v2) k3 v3) k4 v4 =
    upsert (upsert (upsert (upsert m k1 v1) k2 v2) k3 v3) k4 v4 := by
  set M := upsert (upsert (upsert (upsert m k1 v1) k2 v2) k3 v3) k4 v4 with hM
  have e1 : upsert M k1 v1 = M := by
    refine upsert_of_lookup_eq _ _ _ ?_
    rw [hM, lookupS_upsert_ne _ _ _ _ h14, lookupS_upsert_ne _ _ _ _ h13,
      lookupS_upsert_ne _ _ _ _ h12, lookupS_upsert_self]
  have e2 : upsert M k2 v2 = M := by
    refine upsert_of_lookup_eq _ _ _ ?_
    rw [hM, lookupS_upsert_ne _ _ _ _ h24, lookupS_upsert_ne _ _ _ _ h23,
      lookupS_upsert_self]
  have e3 : upsert M k3 v3 = M := by
    refine upsert_of_lookup_eq _ _ _ ?_
    rw [hM, lookupS_upsert_ne _ _ _ _ h34, lookupS_upsert_self]
  have e4 : upsert M k4 v4 = M := by
    refine upsert_of_lookup_eq _ _ _ ?_
    rw [hM, lookupS_upsert_self]
  rw [e1, e2, e3, e4]

theorem updateMetadata_idem (cfg : Config) (old : List (String × String))
    (ref : ℤ) (alerts : List Alert) :
    updateMetadata cfg (updateMetadata cfg old ref alerts) ref alerts =
      updateMetadata cfg old ref alerts := by
  simp only [updateMetadata]
  exact upsert4_idem old _ _ _ _ _ _ _ _ (by decide) (by decide) (by decide)
    (by decide) (by decide) (by decide)

/-- C6: a second full run against the unchanged event store and the same
reference timestamp reproduces the density table, the diversity table and
the metadata table exactly — the run never writes the event store, both
grid tables are rebuilt from it deterministically, and the metadata
upserts replace each key with the same value. -/
theorem run_idempotent {α : Type} [LinearOrderedField α] [FloorRing α]
    (logFn : ℕ → α) (cfg : Config) (ref : ℤ) (s : DBState) :
    (runUpdate logFn cfg ref (runUpdate logFn cfg ref s)).density =
      (runUpdate logFn cfg ref s).density
    ∧ (runUpdate logFn cfg ref (runUpdate logFn cfg ref s)).diversity =
      (runUpdate logFn cfg ref s).diversity
    ∧ (runUpdate logFn cfg ref (runUpdate logFn cfg ref s)).metadata =
      (runUpdate logFn cfg ref s).metadata := by
  refine ⟨rfl, rfl, ?_⟩
  exact updateMetadata_idem cfg s.metadata ref s.alerts

/-- C7: one run of `updateGrids` feeds a single reference timestamp to the
density pipeline, the diversity pipeline and the metadata writer; that
timestamp is the maximum stored `pubMillis` when the store is non-empty
and the wall clock `now` when it is empty. -/
theorem single_reference_timestamp {α : Type} [LinearOrderedField α]
    [FloorRing α] (logFn : ℕ → α) (cfg : Config) (now : ℤ) (s : DBState) :
    (updateGrids logFn cfg now s).density =
      generateDensityGridData logFn s.alerts (chooseReferenceTimestamp s.alerts now)
    ∧ (updateGrids logFn cfg now s).diversity =
      generateTemporalDiversityGridData s.alerts (chooseReferenceTimestamp s.alerts now)
    ∧ (updateGrids logFn cfg now s).metadata =
      updateMetadata cfg s.metadata (chooseReferenceTimestamp s.alerts now) s.alerts
    ∧ ((s.alerts = [] ∧ chooseReferenceTimestamp s.alerts now = now)
       ∨ (s.alerts ≠ []
          ∧ (∃ a ∈ s.alerts, a.pubMillis = chooseReferenceTimestamp s.alerts now)
          ∧ ∀ a ∈ s.alerts, a.pubMillis ≤ chooseReferenceTimestamp s.alerts now)) := by
  refine ⟨rfl, rfl, rfl, ?_⟩
  rcases hA : s.alerts with _ | ⟨a, rest⟩
  · left
    exact ⟨rfl, rfl⟩
  · right
    have hch : chooseReferenceTimestamp (a :: rest) now =
        (rest.map Alert.pubMillis).foldl max a.pubMillis := by
      rw [chooseReferenceTimestamp, maxPubMillis, List.foldl_map]
    refine ⟨by simp, ?_, ?_⟩
    · rw [hch]
      rcases foldl_max_attained (rest.map Alert.pubMillis) a.pubMillis with h | h
      · exact ⟨a, List.mem_cons_self a rest, h.symm⟩
      · rcases List.mem_map.mp h with ⟨x, hx, hxe⟩
        exact ⟨x, List.mem_cons_of_mem a hx, hxe⟩
    · intro b hb
      rw [hch]
      rcases List.mem_cons.mp hb with h | h
      · rw [h]
        exact foldl_max_init_le _ _
      · exact foldl_max_mem_le _ _ _ (List.mem_map.mpr ⟨b, h, rfl⟩)

/-- A one-alert database state used to evaluate the orchestrator. -/
def exampleState : DBState := ⟨[⟨5, JSNum.null, JSNum.null⟩], [], [], []⟩

/-- A bounding box configuration used to evaluate the orchestrator. -/
def exampleConfig : Config := ⟨1, -1, -1, 1⟩

/-- C7 witness: the reference timestamp characterization evaluated at a
concrete single-alert store. -/
theorem single_reference_timestamp_witness :
    (updateGrids (fun n => (n : ℚ)) exampleConfig 0 exampleState).density =
      generateDensityGridData (fun n => (n : ℚ)) exampleState.alerts
        (chooseReferenceTimestamp exampleState.alerts 0)
    ∧ (updateGrids (fun n => (n : ℚ)) exampleConfig 0 exampleState).diversity =
      generateTemporalDiversityGridData exampleState.alerts
        (chooseReferenceTimestamp exampleState.alerts 0)
    ∧ (updateGrids (fun n => (n : ℚ)) exampleConfig 0 exampleState).metadata =
      updateMetadata exampleConfig exampleState.metadata
        (chooseReferenceTimestamp exampleState.alerts 0) exampleState.alerts
    ∧ ((exampleState.alerts = []
        ∧ chooseReferenceTimestamp exampleState.alerts 0 = 0)
       ∨ (exampleState.alerts ≠ []
          ∧ (∃ a ∈ exampleState.alerts,
              a.pubMillis = chooseReferenceTimestamp exampleState.alerts 0)
          ∧ ∀ a ∈ exampleState.alerts,
              a.pubMillis ≤ chooseReferenceTimestamp exampleState.alerts 0)) :=
  single_reference_timestamp (fun n => (n : ℚ)) exampleConfig 0 exampleState

/-! Lemmas for the write-failure analysis. -/

theorem densityLevelStepF_fst {α : Type} [LinearOrderedField α] [FloorRing α]
    (logFn : ℕ → α) (oracle : ℕ → ℕ → Bool) (reports : List Alert)
    (twid : ℕ) (st : List (ℕ × ℕ) × List DensityRow) (level : ℕ) :
    (densityLevelStepF logFn oracle reports twid st level).1 =
      st.1 ++ [(twid, level)] := by
  simp only [densityLevelStepF]
  split_ifs <;> rfl

theorem densityLevelsF_fst {α : Type} [LinearOrderedField α] [FloorRing α]
    (logFn : ℕ → α) (o1 o2 : ℕ → ℕ → Bool) (reports : List Alert) (twid : ℕ) :
    ∀ (Ls : List ℕ) (st1 st2 : List (ℕ × ℕ) × List DensityRow),
      st1.1 = st2.1 →
      (Ls.foldl (densityLevelStepF logFn o1 reports twid) st1).1 =
        (Ls.foldl (densityLevelStepF logFn o2 reports twid) st2).1 := by
  intro Ls
  induction Ls with
  | nil => intro st1 st2 h; exact h
  | cons L Ls ih =>
      intro st1 st2 h
      rw [List.foldl_cons, List.foldl_cons]
      refine ih _ _ ?_
      rw [densityLevelStepF_fst, densityLevelStepF_fst, h]

theorem generateDensityGridDataF_fst {α : Type} [LinearOrderedField α]
    [FloorRing α] (logFn : ℕ → α) (o1 o2 : ℕ → ℕ → Bool)
    (alerts : List Alert) (ref : ℤ) :
    (generateDensityGridDataF logFn o1 alerts ref).1 =
      (generateDensityGridDataF logFn o2 alerts ref).1 := by
  rw [generateDensityGridDataF, generateDensityGridDataF]
  have key : ∀ (tws : List TimeWindow)
      (st1 st2 : List (ℕ × ℕ) × List DensityRow), st1.1 = st2.1 →
      (tws.foldl (densityWindowStepF logFn o1 alerts ref) st1).1 =
        (tws.foldl (densityWindowStepF logFn o2 alerts ref) st2).1 := by
    intro tws
    induction tws with
    | nil => intro st1 st2 h; exact h
    | cons tw tws ih =>
        intro st1 st2 h
        rw [List.foldl_cons, List.foldl_cons]
        refine ih _ _ ?_
        simp only [densityWindowStepF]
        split_ifs
        · exact h
        · exact densityLevelsF_fst logFn o1 o2 _ _ levelsDesc st1 st2 h
  exact key TIME_WINDOWS ([], []) ([], []) rfl

theorem divLevelStepF_fst (oracle : ℕ → ℕ → Bool) (g : ℕ)
    (st : List (ℕ × ℕ) × List ((ℤ × ℤ) × ℕ) × List DivRow) (L : ℕ) :
    (divLevelStepF oracle g st L).1 = st.1 ++ [(g, L)] := by
  simp only [divLevelStepF]
  split_ifs <;> rfl

theorem divGroupRunF_fst (o1 o2 : ℕ → ℕ → Bool) (g : ℕ)
    (lm1 lm2 : List ((ℤ × ℤ) × ℕ)) :
    (divGroupRunF o1 g lm1).1 = (divGroupRunF o2 g lm2).1 := by
  rw [divGroupRunF, divGroupRunF]
  have key : ∀ (Ls : List ℕ)
      (st1 st2 : List (ℕ × ℕ) × List ((ℤ × ℤ) × ℕ) × List DivRow),
      st1.1 = st2.1 →
      (Ls.foldl (divLevelStepF o1 g) st1).1 =
        (Ls.foldl (divLevelStepF o2 g) st2).1 := by
    intro Ls
    induction Ls with
    | nil => intro st1 st2 h; exact h
    | cons L Ls ih =>
        intro st1 st2 h
        rw [List.foldl_cons, List.foldl_cons]
        refine ih _ _ ?_
        rw [divLevelStepF_fst, divLevelStepF_fst, h]
  exact key [4, 3, 2, 1, 0] _ _ rfl

theorem generateTemporalDiversityGridDataF_fst (o1 o2 : ℕ → ℕ → Bool)
    (alerts : List Alert) (ref : ℤ) :
    (generateTemporalDiversityGridDataF o1 alerts ref).1 =
      (generateTemporalDiversityGridDataF o2 alerts ref).1 := by
  rw [generateTemporalDiversityGridDataF, generateTemporalDiversityGridDataF]
  simp only []
  split_ifs
  · rfl
  · have key : ∀ (gs : List ℕ) (st1 st2 : List (ℕ × ℕ) × List DivRow),
        st1.1 = st2.1 →
        (gs.foldl (divGroupStepF o1 (validAlertsForDiversity alerts ref)
          (cellMostRecentTimeWindowIdMap (validAlertsForDiversity alerts ref))) st1).1 =
        (gs.foldl (divGroupStepF o2 (validAlertsForDiversity alerts ref)
          (cellMostRecentTimeWindowIdMap (validAlertsForDiversity alerts ref))) st2).1 := by
      intro gs
      induction gs with
      | nil => intro st1 st2 h; exact h
      | cons g gs ih =>
          intro st1 st2 h
          rw [List.foldl_cons, List.foldl_cons]
          refine ih _ _ ?_
          simp only [divGroupStepF]
          rw [h, divGroupRunF_fst o1 o2 g _ _]
    exact key (List.range 4) ([], []) ([], []) rfl

/-- C8: the sequence of per-unit batch writes the run attempts — the
`(window, level)` units of the density pipeline and the
`(radiusGroup, level)` units of the diversity pipeline — is the same under
every write-failure oracle: a caught per-unit failure never prevents a
subsequent level, window or radius group from being attempted, and no
per-unit failure aborts the run. -/
theorem per_unit_failures_isolated {α : Type} [LinearOrderedField α]
    [FloorRing α] (logFn : ℕ → α) (alerts : List Alert) (ref : ℤ)
    (o1 o2 : ℕ → ℕ → Bool) :
    (generateDensityGridDataF logFn o1 alerts ref).1 =
      (generateDensityGridDataF logFn o2 alerts ref).1
    ∧ (generateTemporalDiversityGridDataF o1 alerts ref).1 =
      (generateTemporalDiversityGridDataF o2 alerts ref).1 :=
  ⟨generateDensityGridDataF_fst logFn o1 o2 alerts ref,
    generateTemporalDiversityGridDataF_fst o1 o2 alerts ref⟩

/-! Lemmas about the max-keeping association list of the roll-up. -/

/-- The keys of a cell association list. -/
def cellKeys (m : List ((ℤ × ℤ) × ℕ)) : List (ℤ × ℤ) := m.map Prod.fst

theorem alGetD_cons_eq (a : ℤ × ℤ) (b : ℕ) (rest : List ((ℤ × ℤ) × ℕ)) :
    alGetD ((a, b) :: rest) a = b := by
  rw [alGetD, alGet, if_pos rfl]
  rfl

theorem alGetD_cons_ne (a : ℤ × ℤ) (b : ℕ) (rest : List ((ℤ × ℤ) × ℕ))
    (k' : ℤ × ℤ) (h : ¬a = k') : alGetD ((a, b) :: rest) k' = alGetD rest k' := by
  rw [alGetD, alGet, if_neg h]
  rfl

theorem updateMax_nil (k : ℤ × ℤ) (s : ℕ) :
    updateMax [] k s = [(k, max 0 s)] := rfl

theorem updateMax_cons_eq (a : ℤ × ℤ) (b : ℕ) (rest : List ((ℤ × ℤ) × ℕ))
    (s : ℕ) : updateMax ((a, b) :: rest) a s = (a, max b s) :: rest := by
  rw [updateMax, if_pos rfl]

theorem updateMax_cons_ne (a : ℤ × ℤ) (b : ℕ) (rest : List ((ℤ × ℤ) × ℕ))
    (k : ℤ × ℤ) (s : ℕ) (h : ¬a = k) :
    updateMax ((a, b) :: rest) k s = (a, b) :: updateMax rest k s := by
  rw [updateMax, if_neg h]

theorem alGetD_updateMax (m : List ((ℤ × ℤ) × ℕ)) (k k' : ℤ × ℤ) (s : ℕ) :
    alGetD (updateMax m k s) k' =
      if k' = k then max (alGetD m k') s else alGetD m k' := by
  induction m with
  | nil =>
      by_cases h : k' = k
      · rw [if_pos h, h, updateMax_nil, alGetD_cons_eq]
        rfl
      · rw [if_neg h, updateMax_nil,
          alGetD_cons_ne _ _ _ _ (fun he => h he.symm)]
  | cons p0 rest ih =>
      obtain ⟨a, b⟩ := p0
      by_cases hak : a = k
      · subst hak
        rw [updateMax_cons_eq]
        by_cases h : k' = a
        · rw [if_pos h, h, alGetD_cons_eq, alGetD_cons_eq]
        · rw [if_neg h, alGetD_cons_ne _ _ _ _ (fun he => h he.symm),
            alGetD_cons_ne _ _ _ _ (fun he => h he.symm)]
      · rw [updateMax_cons_ne _ _ _ _ _ hak]
        by_cases h : k' = a
        · have hkk : ¬k' = k := fun he => hak (h.symm.trans he)
          rw [if_neg hkk, h, alGetD_cons_eq, alGetD_cons_eq]
        · rw [alGetD_cons_ne _ _ _ _ (fun he => h he.symm),
            alGetD_cons_ne _ _ _ _ (fun he => h he.symm), ih]

theorem alGetD_foldl_rollUpStep :
    ∀ (cs acc : List ((ℤ × ℤ) × ℕ)) (p : ℤ × ℤ),
      alGetD (cs.foldl rollUpStep acc) p =
        (cs.filter (fun c => parentAddr c.1 = p)).foldl
          (fun a c => max a c.2) (alGetD acc p) := by
  intro cs
  induction cs with
  | nil => intro acc p; rfl
  | cons c cs ih =>
      intro acc p
      rw [List.foldl_cons, ih]
      by_cases hp : parentAddr c.1 = p
      · rw [List.filter_cons_of_pos (by simpa using hp), List.foldl_cons]
        congr 1
        rw [rollUpStep, alGetD_updateMax, if_pos hp.symm]
      · rw [List.filter_cons_of_neg (by simpa using hp)]
        congr 1
        rw [rollUpStep, alGetD_updateMax, if_neg (fun he => hp he.symm)]

theorem mem_cellKeys_updateMax :
    ∀ (m : List ((ℤ × ℤ) × ℕ)) (k x : ℤ × ℤ) (s : ℕ),
      x ∈ cellKeys (updateMax m k s) → x ∈ cellKeys m ∨ x = k := by
  intro m
  induction m with
  | nil =>
      intro k x s hx
      rw [updateMax_nil] at hx
      rcases List.mem_cons.mp hx with h | h
      · exact Or.inr h
      · cases h
  | cons p0 rest ih =>
      obtain ⟨a, b⟩ := p0
      intro k x s hx
      by_cases hak : a = k
      · subst hak
        rw [updateMax_cons_eq] at hx
        rcases List.mem_cons.mp hx with h | h
        · exact Or.inr h
        · exact Or.inl (List.mem_cons_of_mem _ h)
      · rw [updateMax_cons_ne _ _ _ _ _ hak] at hx
        rcases List.mem_cons.mp hx with h | h
        · exact Or.inl (h ▸ List.mem_cons_self _ _)
        · rcases ih k x s h with h2 | h2
          · exact Or.inl (List.mem_cons_of_mem _ h2)
          · exact Or.inr h2

theorem nodup_cellKeys_updateMax :
    ∀ (m : List ((ℤ × ℤ) × ℕ)) (k : ℤ × ℤ) (s : ℕ),
      (cellKeys m).Nodup → (cellKeys (updateMax m k s)).Nodup := by
  intro m
  induction m with
  | nil =>
      intro k s _
      rw [updateMax_nil]
      exact List.nodup_singleton _
  | cons p0 rest ih =>
      obtain ⟨a, b⟩ := p0
      intro k s hnd
      rw [cellKeys, List.map_cons, List.nodup_cons] at hnd
      by_cases hak : a = k
      · subst hak
        rw [updateMax_cons_eq, cellKeys, List.map_cons, List.nodup_cons]
        exact hnd
      · rw [updateMax_cons_ne _ _ _ _ _ hak, cellKeys, List.map_cons,
          List.nodup_cons]
        refine ⟨?_, ih k s hnd.2⟩
        intro hmem
        rcases mem_cellKeys_updateMax rest k a s hmem with h | h
        · exact hnd.1 h
        · exact hak h

theorem alGet_of_mem_nodup :
    ∀ (m : List ((ℤ × ℤ) × ℕ)), (cellKeys m).Nodup →
      ∀ (p : ℤ × ℤ) (s : ℕ), (p, s) ∈ m → alGet m p = some s := by
  intro m
  induction m with
  | nil => intro _ p s hm; cases hm
  | cons p0 rest ih =>
      obtain ⟨a, b⟩ := p0
      intro hnd p s hm
      rw [cellKeys, List.map_cons, List.nodup_cons] at hnd
      rcases List.mem_cons.mp hm with h | h
      · have hp : p = a := congrArg Prod.fst h
        have hs : s = b := congrArg Prod.snd h
        subst hp
        subst hs
        rw [alGet, if_pos rfl]
      · by_cases hap : a = p
        · exfalso
          apply hnd.1
          rw [hap]
          exact List.mem_map.mpr ⟨(p, s), h, rfl⟩
        · rw [alGet, if_neg hap]
          exact ih hnd.2 p s h

theorem nodup_cellKeys_foldl_rollUpStep :
    ∀ (cs acc : List ((ℤ × ℤ) × ℕ)),
      (cellKeys acc).Nodup → (cellKeys (cs.foldl rollUpStep acc)).Nodup := by
  intro cs
  induction cs with
  | nil => intro acc h; exact h
  | cons c cs ih =>
      intro acc h
      rw [List.foldl_cons]
      exact ih _ (nodup_cellKeys_updateMax acc _ _ h)

theorem divPersisted_succ (lm : List ((ℤ × ℤ) × ℕ)) (L : ℕ) (hL : L < 5) :
    divPersisted lm L = rollUpLevel (divPersisted lm (L + 1)) := by
  rw [divPersisted, divPersisted]
  have h5 : 5 - L = (5 - (L + 1)) + 1 := by omega
  rw [h5]
  rfl

/-- C1: for every radius group, each cell persisted at a level `L < 5` has
a score that is attained by, and bounds, the scores of the persisted
level-(L+1) cells of the same group whose truncated-division-by-10 parent
address matches; and a parent address with no persisted children has no
persisted level-L cell. -/
theorem diversity_rollup_invariant (lm : List ((ℤ × ℤ) × ℕ)) (L : ℕ)
    (hL : L < 5) :
    (∀ p s, (p, s) ∈ divPersisted lm L →
        s ∈ (divChildren lm L p).map Prod.snd
        ∧ ∀ t ∈ (divChildren lm L p).map Prod.snd, t ≤ s)
    ∧ ∀ p, divChildren lm L p = [] → ∀ s, (p, s) ∉ divPersisted lm L := by
  have hstep := divPersisted_succ lm L hL
  have hval : ∀ p s, (p, s) ∈ rollUpLevel (divPersisted lm (L + 1)) →
      0 < s ∧ s = ((divChildren lm L p).map Prod.snd).foldl max 0 := by
    intro p s hmem
    rw [rollUpLevel] at hmem
    have h1 := List.mem_filter.mp hmem
    have hpos : 0 < s := by simpa using h1.2
    have hnd : (cellKeys (rollUpFold (divPersisted lm (L + 1)))).Nodup :=
      nodup_cellKeys_foldl_rollUpStep _ [] List.nodup_nil
    have hget : alGet (rollUpFold (divPersisted lm (L + 1))) p = some s :=
      alGet_of_mem_nodup _ hnd p s h1.1
    have hgd : alGetD (rollUpFold (divPersisted lm (L + 1))) p = s := by
      rw [alGetD, hget]
      rfl
    have hfold := alGetD_foldl_rollUpStep (divPersisted lm (L + 1)) [] p
    rw [rollUpFold] at hgd
    rw [hgd] at hfold
    refine ⟨hpos, ?_⟩
    rw [divChildren, List.foldl_map]
    exact hfold
  constructor
  · intro p s hmem
    rw [hstep] at hmem
    obtain ⟨hpos, hs⟩ := hval p s hmem
    constructor
    · rcases foldl_max_attained ((divChildren lm L p).map Prod.snd) 0 with h | h
      · rw [hs, h] at hpos
        cases hpos
      · rw [hs]
        exact h
    · intro t ht
      rw [hs]
      exact foldl_max_mem_le _ 0 t ht
  · intro p hch s hmem
    rw [hstep] at hmem
    obtain ⟨hpos, hs⟩ := hval p s hmem
    rw [hch] at hs
    simp at hs
    rw [hs] at hpos
    cases hpos

/-- C1 witness: the invariant evaluated for a one-cell level-5 list. -/
theorem diversity_rollup_invariant_witness :
    4 < 5 ∧
      ((2 : ℕ) ∈ (divChildren [((12, 34), 2)] 4 (1, 3)).map Prod.snd
        ∧ ∀ t ∈ (divChildren [((12, 34), 2)] 4 (1, 3)).map Prod.snd, t ≤ 2) :=
  ⟨by decide,
    (diversity_rollup_invariant [((12, 34), 2)] 4 (by decide)).1 (1, 3) 2
      (by decide)⟩

/-! The diversity example: two events in adjacent maximum-precision cells,
one in window 0 and one in window 1. -/

theorem truncRat_intCast (n : ℤ) : truncRat (n : ℚ) = n := by
  rw [truncRat]
  by_cases h : (0 : ℚ) ≤ (n : ℚ)
  · rw [if_pos h, Int.floor_intCast]
  · rw [if_neg h, ← Int.cast_neg, Int.floor_intCast, neg_neg]

/-- The window-0 example alert, in cell `(1000001, 2000001)` at level 5. -/
def divExA : DivAlert :=
  ⟨JSNum.num (1000001 / 100000), JSNum.num (2000001 / 100000), 0⟩

/-- The window-1 example alert, in the adjacent cell `(1000002, 2000001)`. -/
def divExB : DivAlert :=
  ⟨JSNum.num (1000002 / 100000), JSNum.num (2000001 / 100000), 1⟩

/-- The most-recent-window index the two example alerts build. -/
def divExCellMap : List ((ℤ × ℤ) × ℕ) :=
  [((1000001, 2000001), 0), ((1000002, 2000001), 1)]

theorem scale_divExA_lon :
    scaleCoordinate divExA.longitude 5 = some 1000001 := by
  rw [show divExA.longitude = JSNum.num ((1000001 : ℚ) / 100000) from rfl,
    scaleCoordinate, if_neg (by norm_num)]
  rw [show ((1000001 : ℚ) / 100000) * 10 ^ 5 = ((1000001 : ℤ) : ℚ) by norm_num,
    truncRat_intCast]

theorem scale_divExA_lat :
    scaleCoordinate divExA.latitude 5 = some 2000001 := by
  rw [show divExA.latitude = JSNum.num ((2000001 : ℚ) / 100000) from rfl,
    scaleCoordinate, if_neg (by norm_num)]
  rw [show ((2000001 : ℚ) / 100000) * 10 ^ 5 = ((2000001 : ℤ) : ℚ) by norm_num,
    truncRat_intCast]

theorem scale_divExB_lon :
    scaleCoordinate divExB.longitude 5 = some 1000002 := by
  rw [show divExB.longitude = JSNum.num ((1000002 : ℚ) / 100000) from rfl,
    scaleCoordinate, if_neg (by norm_num)]
  rw [show ((1000002 : ℚ) / 100000) * 10 ^ 5 = ((1000002 : ℤ) : ℚ) by norm_num,
    truncRat_intCast]

theorem scale_divExB_lat :
    scaleCoordinate divExB.latitude 5 = some 2000001 := by
  rw [show divExB.latitude = JSNum.num ((2000001 : ℚ) / 100000) from rfl,
    scaleCoordinate, if_neg (by norm_num)]
  rw [show ((2000001 : ℚ) / 100000) * 10 ^ 5 = ((2000001 : ℤ) : ℚ) by norm_num,
    truncRat_intCast]

theorem cellMapStep_some (acc : List ((ℤ × ℤ) × ℕ)) (a : DivAlert)
    (x y : ℤ) (hx : scaleCoordinate a.longitude 5 = some x)
    (hy : scaleCoordinate a.latitude 5 = some y) :
    cellMapStep acc a = keepMinWindow acc (x, y) a.timeWindowId := by
  rw [cellMapStep, hx, hy]

theorem levelMaxStep_some (cm : List ((ℤ × ℤ) × ℕ)) (hw : ℕ)
    (acc : List ((ℤ × ℤ) × ℕ)) (a : DivAlert) (x y : ℤ)
    (hx : scaleCoordinate a.longitude 5 = some x)
    (hy : scaleCoordinate a.latitude 5 = some y) :
    levelMaxStep cm hw acc a =
      updateMax acc (x, y) (diversityScoreForAnchor cm (x, y) hw) := by
  rw [levelMaxStep, hx, hy]

theorem divEx_cellMap :
    cellMostRecentTimeWindowIdMap [divExA, divExB] = divExCellMap := by
  rw [cellMostRecentTimeWindowIdMap, List.foldl_cons, List.foldl_cons,
    List.foldl_nil,
    cellMapStep_some [] divExA 1000001 2000001 scale_divExA_lon scale_divExA_lat,
    cellMapStep_some _ divExB 1000002 2000001 scale_divExB_lon scale_divExB_lat]
  rw [show divExA.timeWindowId = 0 from rfl,
    show divExB.timeWindowId = 1 from rfl]
  rw [show keepMinWindow [] ((1000001 : ℤ), (2000001 : ℤ)) 0 =
    [((1000001, 2000001), 0)] from rfl]
  rw [keepMinWindow, if_neg (by decide)]
  rfl

theorem mem_offsetRange (h : ℕ) (d : ℤ) :
    d ∈ offsetRange h ↔ -(h : ℤ) ≤ d ∧ d ≤ (h : ℤ) := by
  rw [offsetRange, List.mem_map]
  constructor
  · rintro ⟨i, hi, hd⟩
    rw [List.mem_range] at hi
    have hd2 : (i : ℤ) - (h : ℤ) = d := hd
    omega
  · rintro ⟨h1, h2⟩
    have hnn : 0 ≤ d + (h : ℤ) := by omega
    obtain ⟨n, hn⟩ : ∃ n : ℕ, (n : ℤ) = d + (h : ℤ) :=
      ⟨(d + (h : ℤ)).toNat, Int.toNat_of_nonneg hnn⟩
    refine ⟨n, List.mem_range.mpr (by omega), ?_⟩
    have hgoal : (n : ℤ) - (h : ℤ) = d := by omega
    exact hgoal

theorem mem_windowsInProximity (cm : List ((ℤ × ℤ) × ℕ)) (anchor : ℤ × ℤ)
    (h : ℕ) (w : ℕ) :
    w ∈ windowsInProximity cm anchor h ↔
      ∃ dx dy : ℤ, dx ∈ offsetRange h ∧ dy ∈ offsetRange h ∧
        alGet cm (anchor.1 + dx, anchor.2 + dy) = some w := by
  rw [windowsInProximity]
  simp only [List.mem_flatMap, List.mem_filterMap]
  constructor
  · rintro ⟨dy, hdy, dx, hdx, hget⟩
    exact ⟨dx, dy, hdx, hdy, hget⟩
  · rintro ⟨dx, dy, hdx, hdy, hget⟩
    exact ⟨dy, hdy, dx, hdx, hget⟩

theorem alGet_divExCellMap (x y : ℤ) (w : ℕ) :
    alGet divExCellMap (x, y) = some w ↔
      (x = 1000001 ∧ y = 2000001 ∧ w = 0) ∨
        (x = 1000002 ∧ y = 2000001 ∧ w = 1) := by
  rw [divExCellMap, alGet]
  by_cases h1 : ((1000001, 2000001) : ℤ × ℤ) = (x, y)
  · have hx : x = 1000001 := (congrArg Prod.fst h1).symm
    have hy : y = 2000001 := (congrArg Prod.snd h1).symm
    rw [if_pos h1]
    constructor
    · intro hw
      injection hw with hw
      exact Or.inl ⟨hx, hy, hw.symm⟩
    · rintro (⟨_, _, rfl⟩ | ⟨hx2, _, _⟩)
      · rfl
      · exfalso
        omega
  · rw [if_neg h1, alGet]
    by_cases h2 : ((1000002, 2000001) : ℤ × ℤ) = (x, y)
    · have hx : x = 1000002 := (congrArg Prod.fst h2).symm
      have hy : y = 2000001 := (congrArg Prod.snd h2).symm
      rw [if_pos h2]
      constructor
      · intro hw
        injection hw with hw
        exact Or.inr ⟨hx, hy, hw.symm⟩
      · rintro (⟨hx1, _, _⟩ | ⟨_, _, rfl⟩)
        · exfalso
          omega
        · rfl
    · rw [if_neg h2, alGet]
      constructor
      · intro hfalse
        cases hfalse
      · rintro (⟨hx, hy, _⟩ | ⟨hx, hy, _⟩)
        · exact absurd (by rw [hx, hy] : ((1000001, 2000001) : ℤ × ℤ) = (x, y)) h1
        · exact absurd (by rw [hx, hy] : ((1000002, 2000001) : ℤ × ℤ) = (x, y)) h2

theorem divEx_score_A (h : ℕ) (hh : 1 ≤ h) :
    diversityScoreForAnchor divExCellMap (1000001, 2000001) h = 2 := by
  rw [diversityScoreForAnchor]
  have hset : (windowsInProximity divExCellMap (1000001, 2000001) h).toFinset =
      ({0, 1} : Finset ℕ) := by
    ext w
    rw [List.mem_toFinset, mem_windowsInProximity]
    constructor
    · rintro ⟨dx, dy, hdx, hdy, hget⟩
      rw [alGet_divExCellMap] at hget
      rcases hget with ⟨_, _, rfl⟩ | ⟨_, _, rfl⟩
      · exact Finset.mem_insert_self 0 {1}
      · exact Finset.mem_insert_of_mem (Finset.mem_singleton_self 1)
    · intro hw
      rcases Finset.mem_insert.mp hw with rfl | hw
      · refine ⟨0, 0, (mem_offsetRange h 0).mpr (by omega),
          (mem_offsetRange h 0).mpr (by omega), ?_⟩
        rw [alGet_divExCellMap]
        exact Or.inl ⟨by norm_num, by norm_num, rfl⟩
      · rw [Finset.mem_singleton] at hw
        subst hw
        refine ⟨1, 0, (mem_offsetRange h 1).mpr (by omega),
          (mem_offsetRange h 0).mpr (by omega), ?_⟩
        rw [alGet_divExCellMap]
        exact Or.inr ⟨by norm_num, by norm_num, rfl⟩
  rw [hset]
  rfl

theorem divEx_score_B (h : ℕ) (hh : 1 ≤ h) :
    diversityScoreForAnchor divExCellMap (1000002, 2000001) h = 2 := by
  rw [diversityScoreForAnchor]
  have hset : (windowsInProximity divExCellMap (1000002, 2000001) h).toFinset =
      ({0, 1} : Finset ℕ) := by
    ext w
    rw [List.mem_toFinset, mem_windowsInProximity]
    constructor
    · rintro ⟨dx, dy, hdx, hdy, hget⟩
      rw [alGet_divExCellMap] at hget
      rcases hget with ⟨_, _, rfl⟩ | ⟨_, _, rfl⟩
      · exact Finset.mem_insert_self 0 {1}
      · exact Finset.mem_insert_of_mem (Finset.mem_singleton_self 1)
    · intro hw
      rcases Finset.mem_insert.mp hw with rfl | hw
      · refine ⟨-1, 0, (mem_offsetRange h (-1)).mpr (by omega),
          (mem_offsetRange h 0).mpr (by omega), ?_⟩
        rw [alGet_divExCellMap]
        exact Or.inl ⟨by norm_num, by norm_num, rfl⟩
      · rw [Finset.mem_singleton] at hw
        subst hw
        refine ⟨0, 0, (mem_offsetRange h 0).mpr (by omega),
          (mem_offsetRange h 0).mpr (by omega), ?_⟩
        rw [alGet_divExCellMap]
        exact Or.inr ⟨by norm_num, by norm_num, rfl⟩
  rw [hset]
  rfl

theorem divEx_levelMax (h : ℕ) (hh : 1 ≤ h) :
    levelMaxCellDiversity [divExA, divExB] divExCellMap h =
      [((1000001, 2000001), 2), ((1000002, 2000001), 2)] := by
  rw [levelMaxCellDiversity, List.foldl_cons, List.foldl_cons, List.foldl_nil,
    levelMaxStep_some _ _ _ divExA 1000001 2000001 scale_divExA_lon
      scale_divExA_lat,
    levelMaxStep_some _ _ _ divExB 1000002 2000001 scale_divExB_lon
      scale_divExB_lat,
    divEx_score_A h hh, divEx_score_B h hh]
  rfl

theorem divEx_levelMax_zero :
    levelMaxCellDiversity [divExA, divExB] divExCellMap 0 =
      [((1000001, 2000001), 1), ((1000002, 2000001), 1)] := by
  rw [levelMaxCellDiversity, List.foldl_cons, List.foldl_cons, List.foldl_nil,
    levelMaxStep_some _ _ _ divExA 1000001 2000001 scale_divExA_lon
      scale_divExA_lat,
    levelMaxStep_some _ _ _ divExB 1000002 2000001 scale_divExB_lon
      scale_divExB_lat]
  decide

/-- C3: for the two example events in adjacent level-5 cells, one in
window 0 and one in window 1: the configured radius groups have
neighborhood half-widths 1, 2, 5 and 10 cells; for any radius group whose
half-width is at least 1 the persisted level-5 scores of both cells are 2,
and for a (hypothetical) radius group of half-width 0 each cell gets
score 1. -/
theorem diversity_example (g h : ℕ) (hh : 1 ≤ h) :
    neighborhoodHalfWidthInCells 0 = 1 ∧ neighborhoodHalfWidthInCells 1 = 2
    ∧ neighborhoodHalfWidthInCells 2 = 5 ∧ neighborhoodHalfWidthInCells 3 = 10
    ∧ levelMaxInserts g (levelMaxCellDiversity [divExA, divExB]
        (cellMostRecentTimeWindowIdMap [divExA, divExB]) h) =
      [⟨g, 5, 1000001, 2000001, 2⟩, ⟨g, 5, 1000002, 2000001, 2⟩]
    ∧ levelMaxInserts g (levelMaxCellDiversity [divExA, divExB]
        (cellMostRecentTimeWindowIdMap [divExA, divExB]) 0) =
      [⟨g, 5, 1000001, 2000001, 1⟩, ⟨g, 5, 1000002, 2000001, 1⟩] := by
  refine ⟨?_, ?_, ?_, ?_, ?_, ?_⟩
  · rw [neighborhoodHalfWidthInCells]
    norm_num [DIVERSITY_RADII]
  · rw [neighborhoodHalfWidthInCells]
    norm_num [DIVERSITY_RADII]
    rfl
  · rw [neighborhoodHalfWidthInCells]
    norm_num [DIVERSITY_RADII]
    rfl
  · rw [neighborhoodHalfWidthInCells]
    norm_num [DIVERSITY_RADII]
    rfl
  · rw [divEx_cellMap, divEx_levelMax h hh]
    rfl
  · rw [divEx_cellMap, divEx_levelMax_zero]
    rfl

/-- C3 witness: the example evaluated at group 0 with half-width 1. -/
theorem diversity_example_witness :
    1 ≤ 1 ∧
      levelMaxInserts 0 (levelMaxCellDiversity [divExA, divExB]
          (cellMostRecentTimeWindowIdMap [divExA, divExB]) 1) =
        [⟨0, 5, 1000001, 2000001, 2⟩, ⟨0, 5, 1000002, 2000001, 2⟩] :=
  ⟨by decide, (diversity_example 0 1 (by decide)).2.2.2.2.1⟩

/-! The density example: three events in cell `(1000001, 2000001)` and one
in the adjacent cell `(1000002, 2000001)`, all in time window 0. -/

/-- The thrice-repeated example event in cell A. -/
def denExA : Alert :=
  ⟨1, JSNum.num (1000001 / 100000), JSNum.num (2000001 / 100000)⟩

/-- The single example event in the adjacent cell B. -/
def denExB : Alert :=
  ⟨1, JSNum.num (1000002 / 100000), JSNum.num (2000001 / 100000)⟩

/-- The four example events. -/
def denExEvents : List Alert := [denExA, denExA, denExA, denExB]

/-- The example reference timestamp: seven days after epoch, so that all
four events fall in window 0. -/
def denExRef : ℤ := 604800000

/-- The level-5 cell counts of the example. -/
def denExCounts : List ((ℤ × ℤ) × ℕ) :=
  [((1000001, 2000001), 3), ((1000002, 2000001), 1)]

theorem scale_denExA_lon : scaleCoordinate denExA.longitude 5 = some 1000001 :=
  scale_divExA_lon

theorem scale_denExA_lat : scaleCoordinate denExA.latitude 5 = some 2000001 :=
  scale_divExA_lat

theorem scale_denExB_lon : scaleCoordinate denExB.longitude 5 = some 1000002 :=
  scale_divExB_lon

theorem scale_denExB_lat : scaleCoordinate denExB.latitude 5 = some 2000001 :=
  scale_divExB_lat

theorem densityBucketStep_some (level : ℕ) (acc : List ((ℤ × ℤ) × ℕ))
    (r : Alert) (x y : ℤ) (hx : scaleCoordinate r.longitude level = some x)
    (hy : scaleCoordinate r.latitude level = some y) :
    densityBucketStep level acc r = bump acc (x, y) := by
  rw [densityBucketStep, hx, hy]

theorem denEx_reports :
    processTimeWindowForDensity denExEvents denExRef ⟨0, 0, 7⟩ = denExEvents := by
  rw [processTimeWindowForDensity]
  rw [List.filter_eq_self]
  intro a ha
  rw [denExEvents] at ha
  simp only [List.mem_cons, List.not_mem_nil, or_false] at ha
  rcases ha with rfl | rfl | rfl | rfl <;>
    simp [denExA, denExB, denExRef, DAY_MS, isNotNull]

theorem denEx_counts :
    processPrecisionLevelForDensity denExEvents 5 = denExCounts := by
  rw [processPrecisionLevelForDensity, denExEvents, List.foldl_cons,
    List.foldl_cons, List.foldl_cons, List.foldl_cons, List.foldl_nil,
    densityBucketStep_some 5 _ denExA 1000001 2000001 scale_denExA_lon
      scale_denExA_lat,
    densityBucketStep_some 5 _ denExA 1000001 2000001 scale_denExA_lon
      scale_denExA_lat,
    densityBucketStep_some 5 _ denExA 1000001 2000001 scale_denExA_lon
      scale_denExA_lat,
    densityBucketStep_some 5 _ denExB 1000002 2000001 scale_denExB_lon
      scale_denExB_lat]
  decide

theorem log_two_lt_log_four : Real.log 2 < Real.log 4 :=
  Real.log_lt_log (by norm_num) (by norm_num)

theorem denEx_logs :
    denExCounts.map (fun p => (p.1, Real.log (1 + (p.2 : ℝ)))) =
      [((1000001, 2000001), Real.log 4), ((1000002, 2000001), Real.log 2)] := by
  rw [denExCounts]
  norm_num

theorem denEx_minmax :
    getMinMax ([((1000001, 2000001), Real.log 4),
        ((1000002, 2000001), Real.log 2)].map (fun p => JSNum.num p.2)) =
      (Real.log 2, Real.log 4) := by
  rw [show getMinMax ([((1000001, 2000001), Real.log 4),
      ((1000002, 2000001), Real.log 2)].map (fun p => JSNum.num p.2)) =
    (min (Real.log 4) (Real.log 2), max (Real.log 4) (Real.log 2)) from rfl]
  rw [min_eq_right (le_of_lt log_two_lt_log_four),
    max_eq_left (le_of_lt log_two_lt_log_four)]

theorem denEx_density_A :
    normalize (JSNum.num (Real.log 4)) (Real.log 2) (Real.log 4) 255 = 255 := by
  have hne : Real.log 4 ≠ Real.log 2 := ne_of_gt log_two_lt_log_four
  rw [normalize, if_neg hne, div_self (sub_ne_zero.mpr hne), one_mul, jsRound]
  norm_num

theorem denEx_density_B :
    normalize (JSNum.num (Real.log 2)) (Real.log 2) (Real.log 4) 255 = 0 := by
  have hne : Real.log 4 ≠ Real.log 2 := ne_of_gt log_two_lt_log_four
  rw [normalize, if_neg hne, sub_self, zero_div, zero_mul, jsRound]
  norm_num

theorem denEx_inserts :
    prepareDensityInserts (fun n => Real.log (1 + (n : ℝ))) denExCounts 5 0 =
      [⟨0, 5, 1000001, 2000001, 255⟩] := by
  have hmm2 : getMinMax [JSNum.num (Real.log 4), JSNum.num (Real.log 2)] =
      (Real.log 2, Real.log 4) := denEx_minmax
  simp only [prepareDensityInserts]
  rw [denEx_logs]
  simp [hmm2, denEx_density_A, denEx_density_B, List.filterMap_cons]

/-- C2: for four events all in window 0, three in level-5 cell
`(1000001, 2000001)` and one in the adjacent cell `(1000002, 2000001)`,
the density unit at (window 0, level 5) selects all four events, counts
3 and 1, log-scales the counts to `ln 4` and `ln 2`, takes min `ln 2`
and max `ln 4`, normalizes to densities 255 and 0, drops the 0-density
cell, and persists only cell A for (window 0, level 5). -/
theorem density_example :
    processTimeWindowForDensity denExEvents denExRef ⟨0, 0, 7⟩ = denExEvents
    ∧ processPrecisionLevelForDensity denExEvents 5 = denExCounts
    ∧ denExCounts.map (fun p => (p.1, Real.log (1 + (p.2 : ℝ)))) =
        [((1000001, 2000001), Real.log 4), ((1000002, 2000001), Real.log 2)]
    ∧ getMinMax ([((1000001, 2000001), Real.log 4),
        ((1000002, 2000001), Real.log 2)].map (fun p => JSNum.num p.2)) =
      (Real.log 2, Real.log 4)
    ∧ normalize (JSNum.num (Real.log 4)) (Real.log 2) (Real.log 4) 255 = 255
    ∧ normalize (JSNum.num (Real.log 2)) (Real.log 2) (Real.log 4) 255 = 0
    ∧ prepareDensityInserts (fun n => Real.log (1 + (n : ℝ))) denExCounts 5 0 =
        [⟨0, 5, 1000001, 2000001, 255⟩] :=
  ⟨denEx_reports, denEx_counts, denEx_logs, denEx_minmax, denEx_density_A,
    denEx_density_B, denEx_inserts⟩

end Heatmap
